import Mathlib

/-!
KeyBindingTranslator (WebKit, GTK port)

A shallow embedding of `Source/WebKit/UIProcess/gtk/KeyBindingTranslator.cpp`:
the static key-binding tables, the table resolver `handleKeyBindingsForMap`,
the direct entry point `commandsForKeyval`, the signal callbacks of the hidden
native text view and the event entry point `commandsForKeyEvent`.

Machine integers are natural numbers / integers with explicit reduction modulo
`2^32` where the C++ arithmetic is `unsigned`.  Command names are strings, as in
the source.  A null `const char*` table cell is `none`.  Undefined behaviour of
the C++ code (indexing a `std::array` out of bounds, `std::abs(INT_MIN)`) is the
value `none` of the callback.
-/

namespace WebKit

/-! ## Constants of the GDK headers

The numeric values below are those of `<gdk/gdkkeysyms.h>` and of the
`GdkModifierType`, `GtkDeleteType` and `GtkMovementStep` enumerations of GTK,
which the source file includes. -/

def GDK_SHIFT_MASK : Nat := 1
def GDK_CONTROL_MASK : Nat := 4
def GDK_MOD1_MASK : Nat := 8

def GDK_KEY_b : Nat := 0x062
def GDK_KEY_i : Nat := 0x069
def GDK_KEY_Escape : Nat := 0xff1b
def GDK_KEY_greater : Nat := 0x03e
def GDK_KEY_Tab : Nat := 0xff09
def GDK_KEY_Return : Nat := 0xff0d
def GDK_KEY_KP_Enter : Nat := 0xff8d
def GDK_KEY_ISO_Enter : Nat := 0xfe34
def GDK_KEY_V : Nat := 0x056
def GDK_KEY_Left : Nat := 0xff51
def GDK_KEY_Up : Nat := 0xff52
def GDK_KEY_Right : Nat := 0xff53
def GDK_KEY_Down : Nat := 0xff54
def GDK_KEY_Home : Nat := 0xff50
def GDK_KEY_End : Nat := 0xff57
def GDK_KEY_Page_Up : Nat := 0xff55
def GDK_KEY_Page_Down : Nat := 0xff56
def GDK_KEY_KP_Left : Nat := 0xff96
def GDK_KEY_KP_Up : Nat := 0xff97
def GDK_KEY_KP_Right : Nat := 0xff98
def GDK_KEY_KP_Down : Nat := 0xff99
def GDK_KEY_KP_Home : Nat := 0xff95
def GDK_KEY_KP_Page_Up : Nat := 0xff9a
def GDK_KEY_KP_Page_Down : Nat := 0xff9b
def GDK_KEY_KP_End : Nat := 0xff9c
def GDK_KEY_KP_Insert : Nat := 0xff9e
def GDK_KEY_KP_Delete : Nat := 0xff9f
def GDK_KEY_Delete : Nat := 0xffff
def GDK_KEY_BackSpace : Nat := 0xff08
def GDK_KEY_a : Nat := 0x061
def GDK_KEY_slash : Nat := 0x02f
def GDK_KEY_backslash : Nat := 0x05c
def GDK_KEY_x : Nat := 0x078
def GDK_KEY_c : Nat := 0x063
def GDK_KEY_v : Nat := 0x076

/-- Width of the C++ `unsigned` type: arithmetic on it is modulo `2^32`. -/
def UINT_MODULUS : Nat := 2 ^ 32

/-- The smallest value of the C++ `int` type (`gint`). -/
def INT_MIN : Int := -2147483648

/-- The largest value of the C++ `int` type (`gint`). -/
def INT_MAX : Int := 2147483647

/-! ## Key-combination tables -/

/-- The `KeyCombinationEntry` struct: a key code, a modifier state and the
name of the editor command bound to the combination. -/
structure KeyCombinationEntry where
  gdkKeyCode : Nat
  state : Nat
  name : String
deriving DecidableEq, Repr

/-- The table `customKeyBindings`. -/
def customKeyBindings : List KeyCombinationEntry := [
  ⟨GDK_KEY_b,         GDK_CONTROL_MASK,                    "ToggleBold"⟩,
  ⟨GDK_KEY_i,         GDK_CONTROL_MASK,                    "ToggleItalic"⟩,
  ⟨GDK_KEY_Escape,    0,                                   "Cancel"⟩,
  ⟨GDK_KEY_greater,   GDK_CONTROL_MASK,                    "Cancel"⟩,
  ⟨GDK_KEY_Tab,       0,                                   "InsertTab"⟩,
  ⟨GDK_KEY_Tab,       GDK_SHIFT_MASK,                      "InsertBacktab"⟩,
  ⟨GDK_KEY_Return,    0,                                   "InsertNewLine"⟩,
  ⟨GDK_KEY_KP_Enter,  0,                                   "InsertNewLine"⟩,
  ⟨GDK_KEY_ISO_Enter, 0,                                   "InsertNewLine"⟩,
  ⟨GDK_KEY_Return,    GDK_SHIFT_MASK,                      "InsertLineBreak"⟩,
  ⟨GDK_KEY_KP_Enter,  GDK_SHIFT_MASK,                      "InsertLineBreak"⟩,
  ⟨GDK_KEY_ISO_Enter, GDK_SHIFT_MASK,                      "InsertLineBreak"⟩,
  ⟨GDK_KEY_V,         GDK_CONTROL_MASK ||| GDK_SHIFT_MASK, "PasteAsPlainText"⟩
]

/-- The table `predefinedKeyBindings`. -/
def predefinedKeyBindings : List KeyCombinationEntry := [
  ⟨GDK_KEY_Left,         0,                                   "MoveLeft"⟩,
  ⟨GDK_KEY_KP_Left,      0,                                   "MoveLeft"⟩,
  ⟨GDK_KEY_Left,         GDK_SHIFT_MASK,                      "MoveBackwardAndModifySelection"⟩,
  ⟨GDK_KEY_KP_Left,      GDK_SHIFT_MASK,                      "MoveBackwardAndModifySelection"⟩,
  ⟨GDK_KEY_Left,         GDK_CONTROL_MASK,                    "MoveWordBackward"⟩,
  ⟨GDK_KEY_KP_Left,      GDK_CONTROL_MASK,                    "MoveWordBackward"⟩,
  ⟨GDK_KEY_Left,         GDK_CONTROL_MASK ||| GDK_SHIFT_MASK, "MoveWordBackwardAndModifySelection"⟩,
  ⟨GDK_KEY_KP_Left,      GDK_CONTROL_MASK ||| GDK_SHIFT_MASK, "MoveWordBackwardAndModifySelectio"⟩,
  ⟨GDK_KEY_Right,        0,                                   "MoveRight"⟩,
  ⟨GDK_KEY_KP_Right,     0,                                   "MoveRight"⟩,
  ⟨GDK_KEY_Right,        GDK_SHIFT_MASK,                      "MoveForwardAndModifySelection"⟩,
  ⟨GDK_KEY_KP_Right,     GDK_SHIFT_MASK,                      "MoveForwardAndModifySelection"⟩,
  ⟨GDK_KEY_Right,        GDK_CONTROL_MASK,                    "MoveWordForward"⟩,
  ⟨GDK_KEY_KP_Right,     GDK_CONTROL_MASK,                    "MoveWordForward"⟩,
  ⟨GDK_KEY_Right,        GDK_CONTROL_MASK ||| GDK_SHIFT_MASK, "MoveWordForwardAndModifySelection"⟩,
  ⟨GDK_KEY_KP_Right,     GDK_CONTROL_MASK ||| GDK_SHIFT_MASK, "MoveWordForwardAndModifySelection"⟩,
  ⟨GDK_KEY_Up,           0,                                   "MoveUp"⟩,
  ⟨GDK_KEY_KP_Up,        0,                                   "MoveUp"⟩,
  ⟨GDK_KEY_Up,           GDK_SHIFT_MASK,                      "MoveUpAndModifySelection"⟩,
  ⟨GDK_KEY_KP_Up,        GDK_SHIFT_MASK,                      "MoveUpAndModifySelection"⟩,
  ⟨GDK_KEY_Down,         0,                                   "MoveDown"⟩,
  ⟨GDK_KEY_KP_Down,      0,                                   "MoveDown"⟩,
  ⟨GDK_KEY_Down,         GDK_SHIFT_MASK,                      "MoveDownAndModifySelection"⟩,
  ⟨GDK_KEY_KP_Down,      GDK_SHIFT_MASK,                      "MoveDownAndModifySelection"⟩,
  ⟨GDK_KEY_Home,         0,                                   "MoveToBeginningOfLine"⟩,
  ⟨GDK_KEY_KP_Home,      0,                                   "MoveToBeginningOfLine"⟩,
  ⟨GDK_KEY_Home,         GDK_SHIFT_MASK,                      "MoveToBeginningOfLineAndModifySelection"⟩,
  ⟨GDK_KEY_KP_Home,      GDK_SHIFT_MASK,                      "MoveToBeginningOfLineAndModifySelection"⟩,
  ⟨GDK_KEY_Home,         GDK_CONTROL_MASK,                    "MoveToBeginningOfDocument"⟩,
  ⟨GDK_KEY_KP_Home,      GDK_CONTROL_MASK,                    "MoveToBeginningOfDocument"⟩,
  ⟨GDK_KEY_Home,         GDK_CONTROL_MASK ||| GDK_SHIFT_MASK, "MoveToBeginningOfDocumentAndModifySelection"⟩,
  ⟨GDK_KEY_KP_Home,      GDK_CONTROL_MASK ||| GDK_SHIFT_MASK, "MoveToBeginningOfDocumentAndModifySelection"⟩,
  ⟨GDK_KEY_End,          0,                                   "MoveToEndOfLine"⟩,
  ⟨GDK_KEY_KP_End,       0,                                   "MoveToEndOfLine"⟩,
  ⟨GDK_KEY_End,          GDK_SHIFT_MASK,                      "MoveToEndOfLineAndModifySelection"⟩,
  ⟨GDK_KEY_KP_End,       GDK_SHIFT_MASK,                      "MoveToEndOfLineAndModifySelection"⟩,
  ⟨GDK_KEY_End,          GDK_CONTROL_MASK,                    "MoveToEndOfDocument"⟩,
  ⟨GDK_KEY_KP_End,       GDK_CONTROL_MASK,                    "MoveToEndOfDocument"⟩,
  ⟨GDK_KEY_End,          GDK_CONTROL_MASK ||| GDK_SHIFT_MASK, "MoveToEndOfDocumentAndModifySelection"⟩,
  ⟨GDK_KEY_KP_End,       GDK_CONTROL_MASK ||| GDK_SHIFT_MASK, "MoveToEndOfDocumentAndModifySelection"⟩,
  ⟨GDK_KEY_Page_Up,      0,                                   "MovePageUp"⟩,
  ⟨GDK_KEY_KP_Page_Up,   0,                                   "MovePageUp"⟩,
  ⟨GDK_KEY_Page_Up,      GDK_SHIFT_MASK,                      "MovePageUpAndModifySelection"⟩,
  ⟨GDK_KEY_KP_Page_Up,   GDK_SHIFT_MASK,                      "MovePageUpAndModifySelection"⟩,
  ⟨GDK_KEY_Page_Down,    0,                                   "MovePageDown"⟩,
  ⟨GDK_KEY_KP_Page_Down, 0,                                   "MovePageDown"⟩,
  ⟨GDK_KEY_Page_Down,    GDK_SHIFT_MASK,                      "MovePageDownAndModifySelection"⟩,
  ⟨GDK_KEY_KP_Page_Down, GDK_SHIFT_MASK,                      "MovePageDownAndModifySelection"⟩,
  ⟨GDK_KEY_Delete,       0,                                   "DeleteForward"⟩,
  ⟨GDK_KEY_KP_Delete,    0,                                   "DeleteForward"⟩,
  ⟨GDK_KEY_Delete,       GDK_CONTROL_MASK,                    "DeleteWordForward"⟩,
  ⟨GDK_KEY_KP_Delete,    GDK_CONTROL_MASK,                    "DeleteWordForward"⟩,
  ⟨GDK_KEY_BackSpace,    0,                                   "DeleteBackward"⟩,
  ⟨GDK_KEY_BackSpace,    GDK_SHIFT_MASK,                      "DeleteBackward"⟩,
  ⟨GDK_KEY_BackSpace,    GDK_CONTROL_MASK,                    "DeleteWordBackward"⟩,
  ⟨GDK_KEY_a,            GDK_CONTROL_MASK,                    "SelectAll"⟩,
  ⟨GDK_KEY_a,            GDK_CONTROL_MASK ||| GDK_SHIFT_MASK, "Unselect"⟩,
  ⟨GDK_KEY_slash,        GDK_CONTROL_MASK,                    "SelectAll"⟩,
  ⟨GDK_KEY_backslash,    GDK_CONTROL_MASK,                    "Unselect"⟩,
  ⟨GDK_KEY_x,            GDK_CONTROL_MASK,                    "Cut"⟩,
  ⟨GDK_KEY_c,            GDK_CONTROL_MASK,                    "Copy"⟩,
  ⟨GDK_KEY_v,            GDK_CONTROL_MASK,                    "Paste"⟩,
  ⟨GDK_KEY_KP_Delete,    GDK_SHIFT_MASK,                      "Cut"⟩,
  ⟨GDK_KEY_KP_Insert,    GDK_CONTROL_MASK,                    "Copy"⟩,
  ⟨GDK_KEY_KP_Insert,    GDK_SHIFT_MASK,                      "Paste"⟩
]

/-- The lookup key of `handleKeyBindingsForMap`:
`(state & (GDK_SHIFT_MASK | GDK_CONTROL_MASK | GDK_MOD1_MASK)) << 16 | keyval`,
an `unsigned`. -/
def mapKey (keyval state : Nat) : Nat :=
  (((state &&& (GDK_SHIFT_MASK ||| GDK_CONTROL_MASK ||| GDK_MOD1_MASK)) <<< 16) ||| keyval)
    % UINT_MODULUS

/-- The key of a table entry as the loop of `handleKeyBindingsForMap` computes
it: `item.state << 16 | item.gdkKeyCode`, an `unsigned`. -/
def itemKey (item : KeyCombinationEntry) : Nat :=
  ((item.state <<< 16) ||| item.gdkKeyCode) % UINT_MODULUS

/-- The `for` loop of `handleKeyBindingsForMap`: the first entry whose key
equals `key` returns its name as a one-element vector; falling off the end
returns the empty vector. -/
def scanMapping (key : Nat) : List KeyCombinationEntry → List String
  | [] => []
  | item :: rest => if key = itemKey item then [item.name] else scanMapping key rest

/-- The function `handleKeyBindingsForMap`. -/
def handleKeyBindingsForMap (mapping : List KeyCombinationEntry) (keyval state : Nat) :
    List String :=
  if mapKey keyval state = 0 then []
  else scanMapping (mapKey keyval state) mapping

/-- The function `handleCustomKeyBindings`. -/
def handleCustomKeyBindings (keyval state : Nat) : List String :=
  handleKeyBindingsForMap customKeyBindings keyval state

/-- The method `KeyBindingTranslator::commandsForKeyval`: the predefined table
first, the custom table when the predefined one gave nothing. -/
def commandsForKeyval (keyval modifiers : Nat) : List String :=
  let commands := handleKeyBindingsForMap predefinedKeyBindings keyval modifiers
  if !commands.isEmpty then commands
  else handleCustomKeyBindings keyval modifiers

/-- The lookup order the specification describes for the orchestrator (custom
table first, predefined table second), applied to a raw key and modifier
pair.  It is the comparison target for `commandsForKeyval`, which the source
writes with the predefined table first. -/
def commandsForKeyvalCustomFirst (keyval modifiers : Nat) : List String :=
  let commands := handleCustomKeyBindings keyval modifiers
  if !commands.isEmpty then commands
  else handleKeyBindingsForMap predefinedKeyBindings keyval modifiers

/-! ## The translator and the callbacks of the native widget -/

/-- The values of the `GtkDeleteType` enumeration. -/
def GTK_DELETE_CHARS : Int := 0
def GTK_DELETE_WORD_ENDS : Int := 1
def GTK_DELETE_WORDS : Int := 2
def GTK_DELETE_DISPLAY_LINES : Int := 3
def GTK_DELETE_DISPLAY_LINE_ENDS : Int := 4
def GTK_DELETE_PARAGRAPH_ENDS : Int := 5
def GTK_DELETE_PARAGRAPHS : Int := 6
def GTK_DELETE_WHITESPACE : Int := 7

/-- The values of the `GtkMovementStep` enumeration. -/
def GTK_MOVEMENT_LOGICAL_POSITIONS : Int := 0
def GTK_MOVEMENT_VISUAL_POSITIONS : Int := 1
def GTK_MOVEMENT_WORDS : Int := 2
def GTK_MOVEMENT_DISPLAY_LINES : Int := 3
def GTK_MOVEMENT_DISPLAY_LINE_ENDS : Int := 4
def GTK_MOVEMENT_PARAGRAPHS : Int := 5
def GTK_MOVEMENT_PARAGRAPH_ENDS : Int := 6
def GTK_MOVEMENT_PAGES : Int := 7
def GTK_MOVEMENT_BUFFER_ENDS : Int := 8
def GTK_MOVEMENT_HORIZONTAL_PAGES : Int := 9

/-- The state of a `KeyBindingTranslator` that this file reads and writes: the
vector `m_pendingEditorCommands`. -/
structure KeyBindingTranslator where
  m_pendingEditorCommands : List String
deriving DecidableEq, Repr

/-- Modelled from the spec: the method `addPendingEditorCommand`, declared in
`KeyBindingTranslator.h`, which is not among the sources: a callback
"appends zero or more CommandNames to the current PendingCommandQueue", one
name per call, at the end of the queue. -/
def KeyBindingTranslator.addPendingEditorCommand (translator : KeyBindingTranslator)
    (command : String) : KeyBindingTranslator :=
  { translator with
    m_pendingEditorCommands := translator.m_pendingEditorCommands ++ [command] }

/-- The table `gtkDeleteCommands`: one row per `GtkDeleteType`, one column per
direction; `none` is `nullptr`. -/
def gtkDeleteCommands : List (List (Option String)) := [
  [some "DeleteBackward",               some "DeleteForward"],          -- Characters
  [some "DeleteWordBackward",           some "DeleteWordForward"],      -- Word ends
  [some "DeleteWordBackward",           some "DeleteWordForward"],      -- Words
  [some "DeleteToBeginningOfLine",      some "DeleteToEndOfLine"],      -- Lines
  [some "DeleteToBeginningOfLine",      some "DeleteToEndOfLine"],      -- Line ends
  [some "DeleteToBeginningOfParagraph", some "DeleteToEndOfParagraph"], -- Paragraph ends
  [some "DeleteToBeginningOfParagraph", some "DeleteToEndOfParagraph"], -- Paragraphs
  [none,                                none]                           -- Whitespace
]

/-- The table `gtkMoveCommands`: one row per `GtkMovementStep`, one column per
direction and selection variant; `none` is `nullptr`. -/
def gtkMoveCommands : List (List (Option String)) := [
  [some "MoveBackward", some "MoveForward",
    some "MoveBackwardAndModifySelection", some "MoveForwardAndModifySelection"],
  [some "MoveLeft", some "MoveRight",
    some "MoveBackwardAndModifySelection", some "MoveForwardAndModifySelection"],
  [some "MoveWordBackward", some "MoveWordForward",
    some "MoveWordBackwardAndModifySelection", some "MoveWordForwardAndModifySelection"],
  [some "MoveUp", some "MoveDown",
    some "MoveUpAndModifySelection", some "MoveDownAndModifySelection"],
  [some "MoveToBeginningOfLine", some "MoveToEndOfLine",
    some "MoveToBeginningOfLineAndModifySelection", some "MoveToEndOfLineAndModifySelection"],
  [none, none,
    some "MoveParagraphBackwardAndModifySelection",
    some "MoveParagraphForwardAndModifySelection"],
  [some "MoveToBeginningOfParagraph", some "MoveToEndOfParagraph",
    some "MoveToBeginningOfParagraphAndModifySelection",
    some "MoveToEndOfParagraphAndModifySelection"],
  [some "MovePageUp", some "MovePageDown",
    some "MovePageUpAndModifySelection", some "MovePageDownAndModifySelection"],
  [some "MoveToBeginningOfDocument", some "MoveToEndOfDocument",
    some "MoveToBeginningOfDocumentAndModifySelection",
    some "MoveToEndOfDocumentAndModifySelection"],
  [none, none, none, none]
]

/-- The expression `table[row][column]` on a `std::array` of `std::array`s.
The row is an enumeration value converted to `size_t`, so a negative row is a
huge index.  An index outside the array is undefined behaviour in C++ and
`none` here; inside, the cell is `some` of a name or of `nullptr`. -/
def tableAt (table : List (List (Option String))) (row : Int) (column : Nat) :
    Option (Option String) :=
  if 0 ≤ row then
    match table[row.toNat]? with
    | none => none
    | some cells => cells[column]?
  else none

/-- The call `std::abs(count)` on an `int`: the absolute value, except at
`INT_MIN`, whose absolute value is not an `int` (undefined behaviour, `none`). -/
def stdAbs (count : Int) : Option Nat :=
  if count = INT_MIN then none else some count.natAbs

/-- The loop `for (int i = 0; i < n; i++) translator->addPendingEditorCommand(rawCommand)`
with `n` iterations left. -/
def addPendingLoop (rawCommand : String) : Nat → KeyBindingTranslator → KeyBindingTranslator
  | 0, translator => translator
  | n + 1, translator => addPendingLoop rawCommand n (translator.addPendingEditorCommand rawCommand)

/-- The tail shared by `deleteFromCursorCallback` and `moveCursorCallback`:
read the table cell, return on `nullptr`, otherwise append the command
`std::abs(count)` times. -/
def appendRawCommand (cell : Option (Option String)) (count : Int)
    (translator : KeyBindingTranslator) : Option KeyBindingTranslator :=
  match cell with
  | none => none
  | some none => some translator
  | some (some rawCommand) =>
    match stdAbs count with
    | none => none
    | some n => some (addPendingLoop rawCommand n translator)

/-- The callback `deleteFromCursorCallback`. -/
def deleteFromCursorCallback (deleteType count : Int) (translator : KeyBindingTranslator) :
    Option KeyBindingTranslator :=
  let direction : Nat := if count > 0 then 1 else 0
  let translator :=
    if deleteType = GTK_DELETE_WORDS then
      if direction = 0 then
        (translator.addPendingEditorCommand "MoveWordForward").addPendingEditorCommand
          "MoveWordBackward"
      else
        (translator.addPendingEditorCommand "MoveWordBackward").addPendingEditorCommand
          "MoveWordForward"
    else if deleteType = GTK_DELETE_DISPLAY_LINES then
      if direction = 0 then translator.addPendingEditorCommand "MoveToBeginningOfLine"
      else translator.addPendingEditorCommand "MoveToEndOfLine"
    else if deleteType = GTK_DELETE_PARAGRAPHS then
      if direction = 0 then translator.addPendingEditorCommand "MoveToBeginningOfParagraph"
      else translator.addPendingEditorCommand "MoveToEndOfParagraph"
    else translator
  appendRawCommand (tableAt gtkDeleteCommands deleteType direction) count translator

/-- The callback `moveCursorCallback`.  The guard compares
`static_cast<unsigned>(step)` with the number of rows of `gtkMoveCommands`. -/
def moveCursorCallback (step count : Int) (extendSelection : Bool)
    (translator : KeyBindingTranslator) : Option KeyBindingTranslator :=
  let direction : Nat := if count > 0 then 1 else 0
  let direction := if extendSelection then direction + 2 else direction
  if (step % (UINT_MODULUS : Int)).toNat ≥ gtkMoveCommands.length then some translator
  else appendRawCommand (tableAt gtkMoveCommands step direction) count translator

/-- The callback `backspaceCallback`. -/
def backspaceCallback (translator : KeyBindingTranslator) : KeyBindingTranslator :=
  translator.addPendingEditorCommand "DeleteBackward"

/-- The callback `selectAllCallback`. -/
def selectAllCallback (select : Bool) (translator : KeyBindingTranslator) :
    KeyBindingTranslator :=
  translator.addPendingEditorCommand (if select then "SelectAll" else "Unselect")

/-- The callback `cutClipboardCallback`. -/
def cutClipboardCallback (translator : KeyBindingTranslator) : KeyBindingTranslator :=
  translator.addPendingEditorCommand "Cut"

/-- The callback `copyClipboardCallback`. -/
def copyClipboardCallback (translator : KeyBindingTranslator) : KeyBindingTranslator :=
  translator.addPendingEditorCommand "Copy"

/-- The callback `pasteClipboardCallback`. -/
def pasteClipboardCallback (translator : KeyBindingTranslator) : KeyBindingTranslator :=
  translator.addPendingEditorCommand "Paste"

/-- The callback `toggleOverwriteCallback`. -/
def toggleOverwriteCallback (translator : KeyBindingTranslator) : KeyBindingTranslator :=
  translator.addPendingEditorCommand "OverWrite"

/-- The callback `insertEmojiCallback`. -/
def insertEmojiCallback (translator : KeyBindingTranslator) : KeyBindingTranslator :=
  translator.addPendingEditorCommand "GtkInsertEmoji"

/-- The callback `popupMenuCallback`: it only stops the emission. -/
def popupMenuCallback (translator : KeyBindingTranslator) : KeyBindingTranslator :=
  translator

/-- The callback `showHelpCallback`: it only stops the emission. -/
def showHelpCallback (translator : KeyBindingTranslator) : KeyBindingTranslator :=
  translator

/-- The signals the constructor connects a callback to, with the arguments the
native text view passes to the callback. -/
inductive Signal where
  | backspace
  | cutClipboard
  | copyClipboard
  | pasteClipboard
  | selectAll (select : Bool)
  | moveCursor (step count : Int) (extendSelection : Bool)
  | deleteFromCursor (deleteType count : Int)
  | toggleOverwrite
  | popupMenu
  | showHelp
  | insertEmoji
deriving DecidableEq, Repr

/-- The connections made by the constructor `KeyBindingTranslator()`: the
callback that runs when the native widget emits a signal. -/
def runCallback : Signal → KeyBindingTranslator → Option KeyBindingTranslator
  | .backspace, translator => some (backspaceCallback translator)
  | .cutClipboard, translator => some (cutClipboardCallback translator)
  | .copyClipboard, translator => some (copyClipboardCallback translator)
  | .pasteClipboard, translator => some (pasteClipboardCallback translator)
  | .selectAll select, translator => some (selectAllCallback select translator)
  | .moveCursor step count extendSelection, translator =>
    moveCursorCallback step count extendSelection translator
  | .deleteFromCursor deleteType count, translator =>
    deleteFromCursorCallback deleteType count translator
  | .toggleOverwrite, translator => some (toggleOverwriteCallback translator)
  | .popupMenu, translator => some (popupMenuCallback translator)
  | .showHelp, translator => some (showHelpCallback translator)
  | .insertEmoji, translator => some (insertEmojiCallback translator)

/-- Modelled from the spec: the native widget, which is GTK code.  Forwarding
an event to it "is synchronous and may invoke zero, one, or several of the
above callbacks before returning"; the callbacks run in the order of the
emitted signals. -/
def runCallbacks : List Signal → KeyBindingTranslator → Option KeyBindingTranslator
  | [], translator => some translator
  | signal :: rest, translator =>
    match runCallback signal translator with
    | none => none
    | some translator => runCallbacks rest translator

/-- The part of a `GdkEventKey` (of the current event of a key controller in
GTK 4) that `commandsForKeyEvent` reads: the key code and the modifier state. -/
structure GdkEventKey where
  keyval : Nat
  state : Nat
deriving DecidableEq, Repr

/-- The method `KeyBindingTranslator::commandsForKeyEvent(GdkEventKey*)` of
the GTK 3 build.  The native widget is the function `nativeWidget`, from the
event to the signals it emits for it.  The result is the returned vector and
the translator afterwards; a failed `ASSERT` and undefined behaviour in a
callback are `none`.  `WTFMove` leaves the member vector empty. -/
def commandsForKeyEvent (nativeWidget : GdkEventKey → List Signal)
    (translator : KeyBindingTranslator) (event : GdkEventKey) :
    Option (List String × KeyBindingTranslator) :=
  if !translator.m_pendingEditorCommands.isEmpty then none
  else
    match runCallbacks (nativeWidget event) translator with
    | none => none
    | some translator =>
      if !translator.m_pendingEditorCommands.isEmpty then
        some (translator.m_pendingEditorCommands,
          { translator with m_pendingEditorCommands := [] })
      else
        some (handleCustomKeyBindings event.keyval event.state, translator)

/-- The key controller of GTK 4, as far as `commandsForKeyEvent` reads it: its
current event. -/
structure GtkEventControllerKey where
  currentEvent : GdkEventKey
deriving DecidableEq, Repr

/-- The method `KeyBindingTranslator::commandsForKeyEvent(GtkEventControllerKey*)`
of the GTK 4 build: the controller is forwarded to the native widget, and the
key code and state are read from the controller's current event. -/
def commandsForKeyEventGtk4 (nativeWidget : GtkEventControllerKey → List Signal)
    (translator : KeyBindingTranslator) (controller : GtkEventControllerKey) :
    Option (List String × KeyBindingTranslator) :=
  if !translator.m_pendingEditorCommands.isEmpty then none
  else
    match runCallbacks (nativeWidget controller) translator with
    | none => none
    | some translator =>
      if !translator.m_pendingEditorCommands.isEmpty then
        some (translator.m_pendingEditorCommands,
          { translator with m_pendingEditorCommands := [] })
      else
        let event := controller.currentEvent
        some (handleCustomKeyBindings event.keyval event.state, translator)

/-! ## Facts about the resolver -/

theorem modifierMask_eq : GDK_SHIFT_MASK ||| GDK_CONTROL_MASK ||| GDK_MOD1_MASK = 13 := by
  decide

theorem mapKey_def (keyval state : Nat) :
    mapKey keyval state = (((state &&& 13) <<< 16) ||| keyval) % 4294967296 := by
  simp only [mapKey, modifierMask_eq, UINT_MODULUS]
  rfl

/-- Only the shift, control and mod1 bits of the state reach the lookup key. -/
theorem mapKey_congr (keyval m1 m2 : Nat) (h : m1 &&& 13 = m2 &&& 13) :
    mapKey keyval m1 = mapKey keyval m2 := by
  rw [mapKey_def, mapKey_def, h]

theorem mapKey_mask (keyval m : Nat) : mapKey keyval (m &&& 13) = mapKey keyval m := by
  apply mapKey_congr
  rw [Nat.and_assoc, Nat.and_self]

theorem handleKeyBindingsForMap_congr (mapping : List KeyCombinationEntry)
    (keyval m1 m2 : Nat) (h : m1 &&& 13 = m2 &&& 13) :
    handleKeyBindingsForMap mapping keyval m1 = handleKeyBindingsForMap mapping keyval m2 := by
  simp only [handleKeyBindingsForMap, mapKey_congr keyval m1 m2 h]

theorem commandsForKeyval_congr (keyval m1 m2 : Nat) (h : m1 &&& 13 = m2 &&& 13) :
    commandsForKeyval keyval m1 = commandsForKeyval keyval m2 := by
  simp only [commandsForKeyval, handleCustomKeyBindings,
    handleKeyBindingsForMap_congr _ keyval m1 m2 h]

/-- A 16-bit key code and the masked state occupy disjoint bit fields. -/
theorem mapKey_of_lt (keyval m : Nat) (hk : keyval < 65536) :
    mapKey keyval m = (m &&& 13) * 65536 + keyval := by
  have hs : m &&& 13 ≤ 13 := Nat.and_le_right
  have hk2 : keyval < 2 ^ 16 := by simpa using hk
  rw [mapKey_def, Nat.shiftLeft_eq, Nat.mul_comm, ← Nat.mul_add_lt_is_or hk2]
  omega

theorem scanMapping_eq_nil (key : Nat) (mapping : List KeyCombinationEntry)
    (h : ∀ item ∈ mapping, key ≠ itemKey item) : scanMapping key mapping = [] := by
  induction mapping with
  | nil => rfl
  | cons item rest ih =>
    have h1 : key ≠ itemKey item := h item (List.mem_cons_self _ _)
    have h2 : ∀ i ∈ rest, key ≠ itemKey i := fun i hi => h i (List.mem_cons_of_mem _ hi)
    simp only [scanMapping, if_neg h1, ih h2]

theorem exists_of_scanMapping_ne_nil (key : Nat) (mapping : List KeyCombinationEntry)
    (h : scanMapping key mapping ≠ []) : ∃ item ∈ mapping, key = itemKey item := by
  by_contra hc
  apply h
  apply scanMapping_eq_nil
  intro item hi heq
  exact hc ⟨item, hi, heq⟩

/-- Every entry of both tables has a non-zero 16-bit key code and a state made
of the shift, control and mod1 bits only, so its key is `state * 2^16 + code`. -/
theorem table_entries_wellFormed :
    ∀ item ∈ customKeyBindings ++ predefinedKeyBindings,
      0 < item.gdkKeyCode ∧ item.gdkKeyCode < 65536 ∧ item.state &&& 13 = item.state ∧
        itemKey item = item.state * 65536 + item.gdkKeyCode := by
  decide

/-- No key of the custom table is a key of the predefined table. -/
theorem custom_keys_not_predefined :
    ∀ item ∈ customKeyBindings, scanMapping (itemKey item) predefinedKeyBindings = [] := by
  decide

theorem custom_predefined_exclusive (key : Nat)
    (h : scanMapping key customKeyBindings ≠ []) :
    scanMapping key predefinedKeyBindings = [] := by
  obtain ⟨item, hi, heq⟩ := exists_of_scanMapping_ne_nil key _ h
  rw [heq]
  exact custom_keys_not_predefined item hi

theorem shiftLeft_or_shiftLeft (a b i : Nat) : a <<< i ||| b <<< i = (a ||| b) <<< i := by
  apply Nat.eq_of_testBit_eq
  intro j
  simp only [Nat.testBit_or, Nat.testBit_shiftLeft]
  by_cases h : j ≥ i <;> simp [h]

theorem and_or_self_right (k s : Nat) : k &&& (s ||| k) = k := by
  apply Nat.eq_of_testBit_eq
  intro j
  simp only [Nat.testBit_and, Nat.testBit_or]
  cases Nat.testBit k j <;> cases Nat.testBit s j <;> rfl

/-- The lookup key of a 32-bit key code: the high half of the key code is
or-ed into the modifier field, the low half is the key field. -/
theorem mapKey_of_lt_uint (keyval m : Nat) (hk : keyval < 4294967296) :
    mapKey keyval m = ((m &&& 13) ||| (keyval >>> 16)) * 65536 + keyval % 65536 := by
  have hs : m &&& 13 < 2 ^ 16 := by
    have : m &&& 13 ≤ 13 := Nat.and_le_right
    omega
  have hhigh : keyval >>> 16 = keyval / 65536 := by
    rw [Nat.shiftRight_eq_div_pow]
  have hh : keyval >>> 16 < 2 ^ 16 := by
    rw [hhigh]
    omega
  have hl : keyval % 65536 < 2 ^ 16 := by omega
  have hsplit : keyval = (keyval >>> 16) <<< 16 ||| keyval % 65536 := by
    rw [Nat.shiftLeft_eq, Nat.mul_comm, ← Nat.mul_add_lt_is_or hl, hhigh]
    omega
  have hor := Nat.or_lt_two_pow hs hh
  have hkey : (m &&& 13) <<< 16 ||| keyval =
      2 ^ 16 * ((m &&& 13) ||| (keyval >>> 16)) + keyval % 65536 := by
    calc (m &&& 13) <<< 16 ||| keyval
        = (m &&& 13) <<< 16 ||| ((keyval >>> 16) <<< 16 ||| keyval % 65536) := by
          rw [← hsplit]
      _ = ((m &&& 13) ||| (keyval >>> 16)) <<< 16 ||| keyval % 65536 := by
          rw [← Nat.or_assoc, shiftLeft_or_shiftLeft]
      _ = 2 ^ 16 * ((m &&& 13) ||| (keyval >>> 16)) + keyval % 65536 := by
          rw [Nat.shiftLeft_eq, Nat.mul_comm, ← Nat.mul_add_lt_is_or hl]
  rw [mapKey_def, hkey]
  omega

/-- The states used by the two tables: none, shift, control, control + shift. -/
theorem table_entries_state :
    ∀ item ∈ customKeyBindings ++ predefinedKeyBindings,
      item.state = 0 ∨ item.state = 1 ∨ item.state = 4 ∨ item.state = 5 := by
  decide

/-- A table entry matches the lookup key of a 32-bit key code exactly when
its key code is the low half of the key code and its state is the masked
modifiers or-ed with the high half. -/
theorem mapKey_eq_itemKey_iff (keyval m : Nat) (hk : keyval < 4294967296)
    (item : KeyCombinationEntry)
    (hi : item ∈ customKeyBindings ++ predefinedKeyBindings) :
    mapKey keyval m = itemKey item ↔
      item.gdkKeyCode = keyval % 65536 ∧ item.state = (m &&& 13) ||| (keyval >>> 16) := by
  obtain ⟨_, h1, _, h3⟩ := table_entries_wellFormed item hi
  rw [mapKey_of_lt_uint keyval m hk, h3]
  have hl : keyval % 65536 < 65536 := Nat.mod_lt _ (by decide)
  constructor
  · intro h
    constructor <;> omega
  · rintro ⟨hc, hs⟩
    rw [hc, hs]

/-- A non-zero high half of the key code that is not 1, 4 or 5 cannot be part
of the state of a table entry. -/
theorem high_half_of_table_state (s high state : Nat) (hstate : state = s ||| high)
    (htable : state = 0 ∨ state = 1 ∨ state = 4 ∨ state = 5) :
    high = 0 ∨ high = 1 ∨ high = 4 ∨ high = 5 := by
  have habsorb : high &&& state = high := by
    rw [hstate]
    exact and_or_self_right high s
  have hle : high ≤ state := by
    rw [← habsorb]
    exact Nat.and_le_right
  rcases htable with h | h | h | h <;> rw [h] at habsorb hle <;>
    interval_cases high <;> revert habsorb <;> decide

theorem commandsForKeyval_zero_of_masked :
    ∀ s, s < 14 → commandsForKeyval 0 s = [] := by
  decide

end WebKit

namespace WebKit

/-- C1: every entry of `predefinedKeyBindings` resolves, through
`commandsForKeyval` at its own key code and state, to exactly its own name,
unless `customKeyBindings` holds an entry with the same key code and the same
masked modifiers, in which case that custom entry's name is the result. -/
theorem commandsForKeyval_predefined_entry (e : KeyCombinationEntry)
    (he : e ∈ predefinedKeyBindings) :
    ((¬ ∃ c ∈ customKeyBindings, c.gdkKeyCode = e.gdkKeyCode ∧ c.state = e.state &&& 13) →
        commandsForKeyval e.gdkKeyCode e.state = [e.name]) ∧
    (∀ c ∈ customKeyBindings, c.gdkKeyCode = e.gdkKeyCode → c.state = e.state &&& 13 →
        commandsForKeyval e.gdkKeyCode e.state = [c.name]) := by
  revert e
  decide

theorem commandsForKeyval_predefined_entry_witness :
    commandsForKeyval GDK_KEY_Home GDK_CONTROL_MASK = ["MoveToBeginningOfDocument"] :=
  (commandsForKeyval_predefined_entry
    ⟨GDK_KEY_Home, GDK_CONTROL_MASK, "MoveToBeginningOfDocument"⟩ (by decide)).1 (by decide)

/-- C2 (counterexample): the key code `0x1ff51` with no modifier is an entry
of neither table, yet `commandsForKeyval` resolves it: bit 16 of the key code
lands in the modifier field of the lookup key and reads as shift + Left. -/
theorem commandsForKeyval_absent_counterexample :
    (0x1ff51 < UINT_MODULUS ∧ 0 < UINT_MODULUS) ∧
    (∀ e ∈ customKeyBindings, ¬ (e.gdkKeyCode = 0x1ff51 ∧ e.state = 0 &&& 13)) ∧
    (∀ e ∈ predefinedKeyBindings, ¬ (e.gdkKeyCode = 0x1ff51 ∧ e.state = 0 &&& 13)) ∧
    commandsForKeyval 0x1ff51 0 = ["MoveBackwardAndModifySelection"] ∧
    commandsForKeyval 0x1ff51 0 ≠ [] := by
  decide

/-- C2 (amended): for every 32-bit key code and every modifier mask such that
neither `customKeyBindings` nor `predefinedKeyBindings` has an entry whose key
code is the key code and whose state is the mask restricted to shift, control
and mod1, `commandsForKeyval` returns the empty list, provided the high half
of the key code (`keyval >> 16`) is not 1, 4 or 5, or else provided no entry
has the low half of the key code as key code and the restricted mask or-ed
with the high half as state. -/
theorem commandsForKeyval_absent (keyval modifiers : Nat) (hk : keyval < 4294967296)
    (hc : ∀ e ∈ customKeyBindings, ¬ (e.gdkKeyCode = keyval ∧ e.state = modifiers &&& 13))
    (hp : ∀ e ∈ predefinedKeyBindings,
      ¬ (e.gdkKeyCode = keyval ∧ e.state = modifiers &&& 13))
    (hhigh : (keyval >>> 16 ≠ 1 ∧ keyval >>> 16 ≠ 4 ∧ keyval >>> 16 ≠ 5) ∨
      ∀ e ∈ customKeyBindings ++ predefinedKeyBindings,
        ¬ (e.gdkKeyCode = keyval % 65536 ∧
          e.state = (modifiers &&& 13) ||| (keyval >>> 16))) :
    commandsForKeyval keyval modifiers = [] := by
  have hnomatch : ∀ item ∈ customKeyBindings ++ predefinedKeyBindings,
      mapKey keyval modifiers ≠ itemKey item := by
    intro item hi heq
    have hboth := (mapKey_eq_itemKey_iff keyval modifiers hk item hi).mp heq
    rcases hhigh with ⟨n1, n4, n5⟩ | hno
    · have hzero : keyval >>> 16 = 0 := by
        rcases high_half_of_table_state _ _ _ hboth.2 (table_entries_state item hi)
          with h | h | h | h
        · exact h
        · exact absurd h n1
        · exact absurd h n4
        · exact absurd h n5
      have hdiv : keyval / 65536 = 0 := by
        rw [Nat.shiftRight_eq_div_pow] at hzero
        exact hzero
      have hcode : item.gdkKeyCode = keyval := by
        rw [hboth.1]
        omega
      have hstate : item.state = modifiers &&& 13 := by
        rw [hboth.2, hzero, Nat.or_zero]
      rcases List.mem_append.mp hi with hmem | hmem
      · exact hc item hmem ⟨hcode, hstate⟩
      · exact hp item hmem ⟨hcode, hstate⟩
    · exact hno item hi hboth
  have h1 := scanMapping_eq_nil (mapKey keyval modifiers) customKeyBindings
    (fun item hi => hnomatch item (List.mem_append_left _ hi))
  have h2 := scanMapping_eq_nil (mapKey keyval modifiers) predefinedKeyBindings
    (fun item hi => hnomatch item (List.mem_append_right _ hi))
  simp [commandsForKeyval, handleCustomKeyBindings, handleKeyBindingsForMap, h1, h2]

theorem commandsForKeyval_absent_witness :
    commandsForKeyval GDK_KEY_b GDK_SHIFT_MASK = [] ∧
    commandsForKeyval 0x01000062 GDK_CONTROL_MASK = [] ∧
    commandsForKeyval 0x1008ff51 0 = [] ∧
    commandsForKeyval 0x0001ff0d GDK_CONTROL_MASK = [] :=
  ⟨commandsForKeyval_absent GDK_KEY_b GDK_SHIFT_MASK (by decide) (by decide) (by decide)
      (Or.inl (by decide)),
    commandsForKeyval_absent 0x01000062 GDK_CONTROL_MASK (by decide) (by decide) (by decide)
      (Or.inl (by decide)),
    commandsForKeyval_absent 0x1008ff51 0 (by decide) (by decide) (by decide)
      (Or.inl (by decide)),
    commandsForKeyval_absent 0x0001ff0d GDK_CONTROL_MASK (by decide) (by decide) (by decide)
      (Or.inr (by decide))⟩

/-- C3: two modifier masks that agree on the shift, control and mod1 bits
give the same result of `commandsForKeyval` for every key code; in particular
a mask gives the same result as its restriction to those three bits. -/
theorem commandsForKeyval_irrelevant_modifiers (keyval m1 m2 : Nat)
    (h : m1 &&& 13 = m2 &&& 13) :
    commandsForKeyval keyval m1 = commandsForKeyval keyval m2 ∧
    commandsForKeyval keyval m1 = commandsForKeyval keyval (m1 &&& 13) := by
  refine ⟨commandsForKeyval_congr keyval m1 m2 h, commandsForKeyval_congr keyval m1 _ ?_⟩
  rw [Nat.and_assoc, Nat.and_self]

theorem commandsForKeyval_irrelevant_modifiers_witness :
    commandsForKeyval GDK_KEY_b 4 = commandsForKeyval GDK_KEY_b (4 ||| 2 ||| 16) ∧
    commandsForKeyval GDK_KEY_b 4 = commandsForKeyval GDK_KEY_b (4 &&& 13) :=
  commandsForKeyval_irrelevant_modifiers GDK_KEY_b 4 (4 ||| 2 ||| 16) (by decide)

/-- C4: every entry of `customKeyBindings` resolves, through
`commandsForKeyval` at its own key code and state, to exactly its own name;
control + b gives ToggleBold, Escape gives Cancel, shift + Tab gives
InsertBacktab, and the predefined control + shift + Left gives
MoveWordBackwardAndModifySelection. -/
theorem commandsForKeyval_custom_entry :
    (∀ e ∈ customKeyBindings, commandsForKeyval e.gdkKeyCode e.state = [e.name]) ∧
    commandsForKeyval GDK_KEY_b GDK_CONTROL_MASK = ["ToggleBold"] ∧
    commandsForKeyval GDK_KEY_Escape 0 = ["Cancel"] ∧
    commandsForKeyval GDK_KEY_Tab GDK_SHIFT_MASK = ["InsertBacktab"] ∧
    commandsForKeyval GDK_KEY_Left (GDK_CONTROL_MASK ||| GDK_SHIFT_MASK) =
      ["MoveWordBackwardAndModifySelection"] := by
  decide

theorem commandsForKeyval_custom_entry_witness :
    commandsForKeyval GDK_KEY_ISO_Enter GDK_SHIFT_MASK = ["InsertLineBreak"] :=
  commandsForKeyval_custom_entry.1 ⟨GDK_KEY_ISO_Enter, GDK_SHIFT_MASK, "InsertLineBreak"⟩
    (by decide)

/-- C9: a key code of zero never resolves: `commandsForKeyval 0 m` is the
empty list for every modifier mask `m`, also when shift, control or mod1 is
set. -/
theorem commandsForKeyval_zero_keyval (m : Nat) : commandsForKeyval 0 m = [] := by
  have hm : m &&& 13 ≤ 13 := Nat.and_le_right
  have hcongr : commandsForKeyval 0 m = commandsForKeyval 0 (m &&& 13) :=
    commandsForKeyval_congr 0 m _ (by rw [Nat.and_assoc, Nat.and_self])
  rw [hcongr]
  exact commandsForKeyval_zero_of_masked _ (by omega)

/-- C10: on the direct key-code path the custom table has priority: whenever
the custom-table lookup is non-empty, `commandsForKeyval` returns it; and
`commandsForKeyval`, which searches the predefined table first, agrees on
every input with the lookup that searches the custom table first. -/
theorem commandsForKeyval_custom_priority (keyval modifiers : Nat) :
    (handleCustomKeyBindings keyval modifiers ≠ [] →
      commandsForKeyval keyval modifiers = handleCustomKeyBindings keyval modifiers) ∧
    commandsForKeyval keyval modifiers = commandsForKeyvalCustomFirst keyval modifiers := by
  by_cases hz : mapKey keyval modifiers = 0
  · simp [commandsForKeyval, commandsForKeyvalCustomFirst, handleCustomKeyBindings,
      handleKeyBindingsForMap, hz]
  · by_cases hc : scanMapping (mapKey keyval modifiers) customKeyBindings = []
    · cases hp : scanMapping (mapKey keyval modifiers) predefinedKeyBindings <;>
        simp [commandsForKeyval, commandsForKeyvalCustomFirst, handleCustomKeyBindings,
          handleKeyBindingsForMap, hz, hc, hp]
    · have hp := custom_predefined_exclusive _ hc
      simp [commandsForKeyval, commandsForKeyvalCustomFirst, handleCustomKeyBindings,
        handleKeyBindingsForMap, hz, hc, hp]

theorem commandsForKeyval_custom_priority_witness :
    handleCustomKeyBindings GDK_KEY_V 5 ≠ [] ∧
    commandsForKeyval GDK_KEY_V 5 = handleCustomKeyBindings GDK_KEY_V 5 ∧
    commandsForKeyval GDK_KEY_V 5 = commandsForKeyvalCustomFirst GDK_KEY_V 5 :=
  ⟨by decide, (commandsForKeyval_custom_priority GDK_KEY_V 5).1 (by decide),
    (commandsForKeyval_custom_priority GDK_KEY_V 5).2⟩

/-! ## Facts about the callbacks -/

theorem addPendingLoop_eq (rawCommand : String) (n : Nat) (translator : KeyBindingTranslator) :
    addPendingLoop rawCommand n translator =
      ⟨translator.m_pendingEditorCommands ++ List.replicate n rawCommand⟩ := by
  induction n generalizing translator with
  | zero => simp [addPendingLoop]
  | succ n ih =>
    simp [addPendingLoop, ih, KeyBindingTranslator.addPendingEditorCommand,
      List.replicate_succ]

theorem stdAbs_of_gt (count : Int) (h : INT_MIN < count) : stdAbs count = some count.natAbs := by
  simp [stdAbs, ne_of_gt h]

/-- C5: when the callbacks run by the native widget for an event append a
non-empty command list `D` to the empty pending queue, `commandsForKeyEvent`
returns exactly `D`, whatever the key code and state of the event are; in the
GTK 3 and in the GTK 4 build. -/
theorem commandsForKeyEvent_delegate_priority (D : List String)
    (translator : KeyBindingTranslator) (hempty : translator.m_pendingEditorCommands = [])
    (hD : D ≠ []) :
    (∀ (nativeWidget : GdkEventKey → List Signal) (event : GdkEventKey),
      runCallbacks (nativeWidget event) translator =
          some ⟨translator.m_pendingEditorCommands ++ D⟩ →
        (commandsForKeyEvent nativeWidget translator event).map Prod.fst = some D) ∧
    (∀ (nativeWidget : GtkEventControllerKey → List Signal)
        (controller : GtkEventControllerKey),
      runCallbacks (nativeWidget controller) translator =
          some ⟨translator.m_pendingEditorCommands ++ D⟩ →
        (commandsForKeyEventGtk4 nativeWidget translator controller).map Prod.fst =
          some D) := by
  constructor
  · intro nativeWidget event hrun
    simp [commandsForKeyEvent, hempty, hrun, hD]
  · intro nativeWidget controller hrun
    simp [commandsForKeyEventGtk4, hempty, hrun, hD]

theorem commandsForKeyEvent_delegate_priority_witness :
    (commandsForKeyEvent (fun _ => [Signal.moveCursor GTK_MOVEMENT_WORDS 2 true]) ⟨[]⟩
        ⟨GDK_KEY_b, GDK_CONTROL_MASK⟩).map Prod.fst =
      some ["MoveWordForwardAndModifySelection", "MoveWordForwardAndModifySelection"] ∧
    (commandsForKeyEventGtk4 (fun _ => [Signal.backspace]) ⟨[]⟩
        ⟨⟨GDK_KEY_Left, 0⟩⟩).map Prod.fst = some ["DeleteBackward"] :=
  ⟨(commandsForKeyEvent_delegate_priority
      ["MoveWordForwardAndModifySelection", "MoveWordForwardAndModifySelection"] ⟨[]⟩ rfl
      (by decide)).1 _ _ (by decide),
    (commandsForKeyEvent_delegate_priority ["DeleteBackward"] ⟨[]⟩ rfl
      (by decide)).2 _ _ (by decide)⟩

/-- C6 (counterexample): for the Left key without modifiers and a native
widget that emits no signal, the custom table has no match and the predefined
table resolves to MoveLeft, yet `commandsForKeyEvent` returns the empty list. -/
theorem commandsForKeyEvent_predefined_counterexample :
    runCallbacks ((fun _ => ([] : List Signal)) (⟨GDK_KEY_Left, 0⟩ : GdkEventKey)) ⟨[]⟩ =
      some ⟨[]⟩ ∧
    handleCustomKeyBindings GDK_KEY_Left 0 = [] ∧
    handleKeyBindingsForMap predefinedKeyBindings GDK_KEY_Left 0 = ["MoveLeft"] ∧
    commandsForKeyEvent (fun _ => []) ⟨[]⟩ ⟨GDK_KEY_Left, 0⟩ = some ([], ⟨[]⟩) ∧
    (commandsForKeyEvent (fun _ => []) ⟨[]⟩ ⟨GDK_KEY_Left, 0⟩).map Prod.fst ≠
      some (handleKeyBindingsForMap predefinedKeyBindings GDK_KEY_Left 0) := by
  decide

/-- C6 (amended): when the callbacks run by the native widget for an event
append no command to the empty pending queue, `commandsForKeyEvent` returns
the lookup of the event's key code and state in the custom table, hence the
empty list when the custom table has no match; the predefined table is not
consulted.  In the GTK 3 and in the GTK 4 build. -/
theorem commandsForKeyEvent_silent_delegate (translator : KeyBindingTranslator)
    (hempty : translator.m_pendingEditorCommands = []) :
    (∀ (nativeWidget : GdkEventKey → List Signal) (event : GdkEventKey),
      runCallbacks (nativeWidget event) translator = some translator →
        (commandsForKeyEvent nativeWidget translator event).map Prod.fst =
            some (handleCustomKeyBindings event.keyval event.state) ∧
          (handleCustomKeyBindings event.keyval event.state = [] →
            (commandsForKeyEvent nativeWidget translator event).map Prod.fst = some [])) ∧
    (∀ (nativeWidget : GtkEventControllerKey → List Signal)
        (controller : GtkEventControllerKey),
      runCallbacks (nativeWidget controller) translator = some translator →
        (commandsForKeyEventGtk4 nativeWidget translator controller).map Prod.fst =
            some (handleCustomKeyBindings controller.currentEvent.keyval
              controller.currentEvent.state) ∧
          (handleCustomKeyBindings controller.currentEvent.keyval
              controller.currentEvent.state = [] →
            (commandsForKeyEventGtk4 nativeWidget translator controller).map Prod.fst =
              some [])) := by
  constructor
  · intro nativeWidget event hrun
    have h : (commandsForKeyEvent nativeWidget translator event).map Prod.fst =
        some (handleCustomKeyBindings event.keyval event.state) := by
      simp [commandsForKeyEvent, hempty, hrun]
    exact ⟨h, fun hnil => by rw [h, hnil]⟩
  · intro nativeWidget controller hrun
    have h : (commandsForKeyEventGtk4 nativeWidget translator controller).map Prod.fst =
        some (handleCustomKeyBindings controller.currentEvent.keyval
          controller.currentEvent.state) := by
      simp [commandsForKeyEventGtk4, hempty, hrun]
    exact ⟨h, fun hnil => by rw [h, hnil]⟩

theorem commandsForKeyEvent_silent_delegate_witness :
    (commandsForKeyEvent (fun _ => [Signal.showHelp]) ⟨[]⟩ ⟨GDK_KEY_Left, 0⟩).map Prod.fst =
      some [] ∧
    (commandsForKeyEventGtk4 (fun _ => []) ⟨[]⟩ ⟨⟨GDK_KEY_Tab, GDK_SHIFT_MASK⟩⟩).map
      Prod.fst = some ["InsertBacktab"] :=
  ⟨((commandsForKeyEvent_silent_delegate ⟨[]⟩ rfl).1 (fun _ => [Signal.showHelp])
      ⟨GDK_KEY_Left, 0⟩ (by decide)).2 (by decide),
    ((commandsForKeyEvent_silent_delegate ⟨[]⟩ rfl).2 (fun _ => [])
      ⟨⟨GDK_KEY_Tab, GDK_SHIFT_MASK⟩⟩ (by decide)).1⟩

/-- C7: for every count above `INT_MIN`, `deleteFromCursorCallback` with the
words unit appends to the pending queue exactly MoveWordForward,
MoveWordBackward and then `|count|` times DeleteWordBackward when
`count <= 0`, and MoveWordBackward, MoveWordForward and then `|count|` times
DeleteWordForward when `count > 0`. -/
theorem deleteFromCursorCallback_words (count : Int) (translator : KeyBindingTranslator)
    (hcount : INT_MIN < count) :
    deleteFromCursorCallback GTK_DELETE_WORDS count translator =
      some ⟨translator.m_pendingEditorCommands ++
        (if count ≤ 0 then
          ["MoveWordForward", "MoveWordBackward"] ++
            List.replicate count.natAbs "DeleteWordBackward"
        else
          ["MoveWordBackward", "MoveWordForward"] ++
            List.replicate count.natAbs "DeleteWordForward")⟩ := by
  by_cases hpos : count > 0
  · have hle : ¬ count ≤ 0 := by omega
    simp [deleteFromCursorCallback, hpos, hle, GTK_DELETE_WORDS, tableAt, gtkDeleteCommands,
      appendRawCommand, stdAbs_of_gt count hcount, addPendingLoop_eq,
      KeyBindingTranslator.addPendingEditorCommand]
  · have hle : count ≤ 0 := by omega
    simp [deleteFromCursorCallback, hpos, hle, GTK_DELETE_WORDS, tableAt, gtkDeleteCommands,
      appendRawCommand, stdAbs_of_gt count hcount, addPendingLoop_eq,
      KeyBindingTranslator.addPendingEditorCommand]

theorem deleteFromCursorCallback_words_witness :
    deleteFromCursorCallback GTK_DELETE_WORDS (-2) ⟨[]⟩ =
      some ⟨["MoveWordForward", "MoveWordBackward", "DeleteWordBackward",
        "DeleteWordBackward"]⟩ ∧
    deleteFromCursorCallback GTK_DELETE_WORDS 2 ⟨[]⟩ =
      some ⟨["MoveWordBackward", "MoveWordForward", "DeleteWordForward",
        "DeleteWordForward"]⟩ :=
  ⟨deleteFromCursorCallback_words (-2) ⟨[]⟩ (by decide),
    deleteFromCursorCallback_words 2 ⟨[]⟩ (by decide)⟩

/-- C8: for every movement step in 0..9, every count above `INT_MIN` and
every extendSelection flag, when the cell of `gtkMoveCommands` at row `step`
and column `2 * extendSelection + (count > 0 ? 1 : 0)` is a command name `c`,
`moveCursorCallback` appends exactly `|count|` copies of `c` to the pending
queue and nothing else. -/
theorem moveCursorCallback_repeats (step count : Int) (extendSelection : Bool) (c : String)
    (translator : KeyBindingTranslator) (hstep : 0 ≤ step ∧ step ≤ 9)
    (hcount : INT_MIN < count)
    (hcell : tableAt gtkMoveCommands step
      (2 * (if extendSelection then 1 else 0) + (if count > 0 then 1 else 0)) =
        some (some c)) :
    moveCursorCallback step count extendSelection translator =
      some ⟨translator.m_pendingEditorCommands ++ List.replicate count.natAbs c⟩ := by
  have hguard : ¬ (step % (UINT_MODULUS : Int)).toNat ≥ gtkMoveCommands.length := by
    simp only [UINT_MODULUS, gtkMoveCommands, List.length]
    omega
  have hdir : (if extendSelection then (if count > 0 then 1 else 0) + 2
      else (if count > 0 then 1 else 0) : Nat) =
      2 * (if extendSelection then 1 else 0) + (if count > 0 then 1 else 0) := by
    cases extendSelection <;> by_cases hpos : count > 0 <;> simp [hpos]
  simp only [moveCursorCallback, if_neg hguard, hdir, hcell, appendRawCommand,
    stdAbs_of_gt count hcount, addPendingLoop_eq]

theorem moveCursorCallback_repeats_witness :
    moveCursorCallback GTK_MOVEMENT_DISPLAY_LINES 3 false ⟨["Copy"]⟩ =
      some ⟨["Copy", "MoveDown", "MoveDown", "MoveDown"]⟩ :=
  moveCursorCallback_repeats GTK_MOVEMENT_DISPLAY_LINES 3 false "MoveDown" ⟨["Copy"]⟩
    (by decide) (by decide) (by decide)

/-! ## Out-of-range units, the queue invariant and the generic resolver -/

theorem tableAt_gtkDeleteCommands_out_of_range (deleteType : Int) (column : Nat)
    (h : deleteType < 0 ∨ 8 ≤ deleteType) :
    tableAt gtkDeleteCommands deleteType column = none := by
  rcases h with h | h
  · have hneg : ¬ 0 ≤ deleteType := by omega
    simp [tableAt, hneg]
  · have hnonneg : 0 ≤ deleteType := by omega
    have hlen : gtkDeleteCommands.length ≤ deleteType.toNat := by
      simp only [gtkDeleteCommands, List.length]
      omega
    simp [tableAt, hnonneg, List.getElem?_eq_none hlen]

/-- C11 (the code at the failing inputs): for a deletion unit outside the
eight rows of `gtkDeleteCommands`, `deleteFromCursorCallback` reads the table
out of bounds, for every count: the read has no defined value and neither has
the callback.  It is not ignored, unlike an out-of-range step in
`moveCursorCallback`, which has a guard. -/
theorem deleteFromCursorCallback_out_of_range (deleteType count : Int)
    (translator : KeyBindingTranslator) (h : deleteType < 0 ∨ 8 ≤ deleteType) :
    tableAt gtkDeleteCommands deleteType (if count > 0 then 1 else 0) = none ∧
    deleteFromCursorCallback deleteType count translator = none ∧
    deleteFromCursorCallback deleteType count translator ≠ some translator := by
  have hcell := tableAt_gtkDeleteCommands_out_of_range deleteType
    (if count > 0 then 1 else 0) h
  have hw : deleteType ≠ GTK_DELETE_WORDS := by
    simp only [GTK_DELETE_WORDS]
    omega
  have hl : deleteType ≠ GTK_DELETE_DISPLAY_LINES := by
    simp only [GTK_DELETE_DISPLAY_LINES]
    omega
  have hp : deleteType ≠ GTK_DELETE_PARAGRAPHS := by
    simp only [GTK_DELETE_PARAGRAPHS]
    omega
  have hnone : deleteFromCursorCallback deleteType count translator = none := by
    simp only [deleteFromCursorCallback, if_neg hw, if_neg hl, if_neg hp, hcell,
      appendRawCommand]
  exact ⟨hcell, hnone, by simp [hnone]⟩

theorem deleteFromCursorCallback_out_of_range_witness :
    deleteFromCursorCallback 8 1 ⟨[]⟩ = none ∧
    deleteFromCursorCallback (-1) 3 ⟨["Copy"]⟩ = none ∧
    moveCursorCallback 10 1 false ⟨[]⟩ = some ⟨[]⟩ :=
  ⟨(deleteFromCursorCallback_out_of_range 8 1 ⟨[]⟩ (by decide)).2.1,
    (deleteFromCursorCallback_out_of_range (-1) 3 ⟨["Copy"]⟩ (by decide)).2.1, by decide⟩

/-- C12: when the pending queue is empty on entry and the callbacks run by the
native widget complete, `commandsForKeyEvent` returns, and the pending queue
is empty again on return: commands appended by the callbacks are moved into
the result.  Every result returned from an empty queue has an empty queue.
In the GTK 3 and in the GTK 4 build. -/
theorem commandsForKeyEvent_queue_empty (translator : KeyBindingTranslator)
    (hempty : translator.m_pendingEditorCommands = []) :
    (∀ (nativeWidget : GdkEventKey → List Signal) (event : GdkEventKey),
      (∀ delegated, runCallbacks (nativeWidget event) translator = some delegated →
        ∃ commands, commandsForKeyEvent nativeWidget translator event =
            some (commands, ⟨[]⟩) ∧
          (delegated.m_pendingEditorCommands ≠ [] →
            commands = delegated.m_pendingEditorCommands)) ∧
      (∀ result, commandsForKeyEvent nativeWidget translator event = some result →
        result.2.m_pendingEditorCommands = [])) ∧
    (∀ (nativeWidget : GtkEventControllerKey → List Signal)
        (controller : GtkEventControllerKey),
      (∀ delegated, runCallbacks (nativeWidget controller) translator = some delegated →
        ∃ commands, commandsForKeyEventGtk4 nativeWidget translator controller =
            some (commands, ⟨[]⟩) ∧
          (delegated.m_pendingEditorCommands ≠ [] →
            commands = delegated.m_pendingEditorCommands)) ∧
      (∀ result, commandsForKeyEventGtk4 nativeWidget translator controller = some result →
        result.2.m_pendingEditorCommands = [])) := by
  constructor
  · intro nativeWidget event
    cases hrun : runCallbacks (nativeWidget event) translator with
    | none => simp [commandsForKeyEvent, hempty, hrun]
    | some delegated =>
      obtain ⟨pending⟩ := delegated
      cases pending with
      | nil => simp [commandsForKeyEvent, hempty, hrun]
      | cons command rest =>
        constructor
        · intro delegated hd
          cases hd
          simp [commandsForKeyEvent, hempty, hrun]
        · intro result hres
          simp [commandsForKeyEvent, hempty, hrun] at hres
          rw [← hres]
  · intro nativeWidget controller
    cases hrun : runCallbacks (nativeWidget controller) translator with
    | none => simp [commandsForKeyEventGtk4, hempty, hrun]
    | some delegated =>
      obtain ⟨pending⟩ := delegated
      cases pending with
      | nil => simp [commandsForKeyEventGtk4, hempty, hrun]
      | cons command rest =>
        constructor
        · intro delegated hd
          cases hd
          simp [commandsForKeyEventGtk4, hempty, hrun]
        · intro result hres
          simp [commandsForKeyEventGtk4, hempty, hrun] at hres
          rw [← hres]

theorem commandsForKeyEvent_queue_empty_witness :
    commandsForKeyEvent (fun _ => [Signal.cutClipboard, Signal.selectAll false]) ⟨[]⟩
        ⟨GDK_KEY_x, GDK_CONTROL_MASK⟩ = some (["Cut", "Unselect"], ⟨[]⟩) ∧
    (∃ commands, commandsForKeyEventGtk4 (fun _ => []) ⟨[]⟩ ⟨⟨GDK_KEY_Escape, 0⟩⟩ =
      some (commands, ⟨[]⟩)) := by
  obtain ⟨commands, hc, hmoved⟩ :=
    ((commandsForKeyEvent_queue_empty ⟨[]⟩ rfl).1
      (fun _ => [Signal.cutClipboard, Signal.selectAll false])
      ⟨GDK_KEY_x, GDK_CONTROL_MASK⟩).1 ⟨["Cut", "Unselect"]⟩ (by decide)
  obtain ⟨commands4, hc4, _⟩ :=
    ((commandsForKeyEvent_queue_empty ⟨[]⟩ rfl).2 (fun _ => [])
      ⟨⟨GDK_KEY_Escape, 0⟩⟩).1 ⟨[]⟩ (by decide)
  refine ⟨?_, commands4, hc4⟩
  rw [hc, hmoved (by decide)]

theorem scanMapping_eq_find (key : Nat) (mapping : List KeyCombinationEntry) :
    scanMapping key mapping =
      ((mapping.find? (fun item => decide (key = itemKey item))).map
        KeyCombinationEntry.name).toList := by
  induction mapping with
  | nil => rfl
  | cons item rest ih =>
    by_cases h : key = itemKey item
    · simp [scanMapping, List.find?, h]
    · simp [scanMapping, List.find?, h, ih]

theorem scanMapping_first (key : Nat) (before after : List KeyCombinationEntry)
    (first : KeyCombinationEntry) (hbefore : ∀ item ∈ before, key ≠ itemKey item)
    (hfirst : key = itemKey first) :
    scanMapping key (before ++ first :: after) = [first.name] := by
  induction before with
  | nil => simp [scanMapping, hfirst]
  | cons item rest ih =>
    have h1 : key ≠ itemKey item := hbefore item (List.mem_cons_self _ _)
    have h2 : ∀ i ∈ rest, key ≠ itemKey i := fun i hi =>
      hbefore i (List.mem_cons_of_mem _ hi)
    rw [List.cons_append]
    simp only [scanMapping, if_neg h1]
    exact ih h2

/-- C13: for every table, key code and state whose encoded key is not zero,
`handleKeyBindingsForMap` returns the one-element list with the name of the
first entry, in table order, whose encoded key equals the encoded lookup key,
and the empty list when no entry matches; an entry preceded only by
non-matching entries wins over every later entry with the same key. -/
theorem handleKeyBindingsForMap_first_match (mapping : List KeyCombinationEntry)
    (keyval state : Nat) (hkey : mapKey keyval state ≠ 0) :
    handleKeyBindingsForMap mapping keyval state =
      ((mapping.find? (fun item => decide (mapKey keyval state = itemKey item))).map
        KeyCombinationEntry.name).toList ∧
    (∀ (before after : List KeyCombinationEntry) (first : KeyCombinationEntry),
      mapping = before ++ first :: after →
      (∀ item ∈ before, mapKey keyval state ≠ itemKey item) →
      mapKey keyval state = itemKey first →
      handleKeyBindingsForMap mapping keyval state = [first.name]) ∧
    ((∀ item ∈ mapping, mapKey keyval state ≠ itemKey item) →
      handleKeyBindingsForMap mapping keyval state = []) := by
  refine ⟨?_, ?_, ?_⟩
  · simp only [handleKeyBindingsForMap, if_neg hkey, scanMapping_eq_find]
  · intro before after first hmap hbefore hfirst
    simp only [handleKeyBindingsForMap, if_neg hkey, hmap]
    exact scanMapping_first _ before after first hbefore hfirst
  · intro hnone
    simp only [handleKeyBindingsForMap, if_neg hkey]
    exact scanMapping_eq_nil _ mapping hnone

theorem handleKeyBindingsForMap_first_match_witness :
    handleKeyBindingsForMap
        [⟨GDK_KEY_a, 0, "Other"⟩, ⟨GDK_KEY_b, GDK_CONTROL_MASK, "First"⟩,
          ⟨GDK_KEY_b, GDK_CONTROL_MASK, "Second"⟩]
        GDK_KEY_b GDK_CONTROL_MASK = ["First"] :=
  (handleKeyBindingsForMap_first_match
    [⟨GDK_KEY_a, 0, "Other"⟩, ⟨GDK_KEY_b, GDK_CONTROL_MASK, "First"⟩,
      ⟨GDK_KEY_b, GDK_CONTROL_MASK, "Second"⟩]
    GDK_KEY_b GDK_CONTROL_MASK (by decide)).2.1
    [⟨GDK_KEY_a, 0, "Other"⟩] [⟨GDK_KEY_b, GDK_CONTROL_MASK, "Second"⟩]
    ⟨GDK_KEY_b, GDK_CONTROL_MASK, "First"⟩ rfl (by decide) (by decide)

theorem moveCursorCallback_of_out_of_range (step count : Int) (extendSelection : Bool)
    (translator : KeyBindingTranslator) (hmin : INT_MIN ≤ step) (hmax : step ≤ INT_MAX)
    (h : step < 0 ∨ 9 < step) :
    moveCursorCallback step count extendSelection translator = some translator := by
  have hguard : (step % (UINT_MODULUS : Int)).toNat ≥ gtkMoveCommands.length := by
    simp only [INT_MIN, INT_MAX] at hmin hmax
    simp only [UINT_MODULUS, gtkMoveCommands, List.length]
    omega
  simp only [moveCursorCallback, if_pos hguard]

theorem moveCursorCallback_of_in_range (step count : Int) (extendSelection : Bool)
    (translator : KeyBindingTranslator) (h0 : 0 ≤ step) (h9 : step ≤ 9) :
    moveCursorCallback step count extendSelection translator =
      appendRawCommand (tableAt gtkMoveCommands step
        (2 * (if extendSelection then 1 else 0) + (if count > 0 then 1 else 0)))
        count translator := by
  have hguard : ¬ (step % (UINT_MODULUS : Int)).toNat ≥ gtkMoveCommands.length := by
    simp only [UINT_MODULUS, gtkMoveCommands, List.length]
    omega
  have hdir : (if extendSelection then (if count > 0 then 1 else 0) + 2
      else (if count > 0 then 1 else 0) : Nat) =
      2 * (if extendSelection then 1 else 0) + (if count > 0 then 1 else 0) := by
    cases extendSelection <;> by_cases hpos : count > 0 <;> simp [hpos]
  simp only [moveCursorCallback, if_neg hguard, hdir]

theorem tableAt_gtkMoveCommands_in_range (step : Int) (direction : Nat) (h0 : 0 ≤ step)
    (h9 : step ≤ 9) (hd : direction ≤ 3) :
    ∃ cell, tableAt gtkMoveCommands step direction = some cell := by
  interval_cases step <;> interval_cases direction <;> exact ⟨_, rfl⟩

/-- C15: for every count above `INT_MIN`, `deleteFromCursorCallback` with the
display-lines unit appends exactly one MoveToBeginningOfLine (count <= 0) or
MoveToEndOfLine (count > 0) and then `|count|` times DeleteToBeginningOfLine
or DeleteToEndOfLine; with the paragraphs unit exactly one
MoveToBeginningOfParagraph or MoveToEndOfParagraph and then `|count|` times
DeleteToBeginningOfParagraph or DeleteToEndOfParagraph. -/
theorem deleteFromCursorCallback_boundary_move (count : Int)
    (translator : KeyBindingTranslator) (hcount : INT_MIN < count) :
    deleteFromCursorCallback GTK_DELETE_DISPLAY_LINES count translator =
      some ⟨translator.m_pendingEditorCommands ++
        (if count ≤ 0 then
          "MoveToBeginningOfLine" :: List.replicate count.natAbs "DeleteToBeginningOfLine"
        else "MoveToEndOfLine" :: List.replicate count.natAbs "DeleteToEndOfLine")⟩ ∧
    deleteFromCursorCallback GTK_DELETE_PARAGRAPHS count translator =
      some ⟨translator.m_pendingEditorCommands ++
        (if count ≤ 0 then
          "MoveToBeginningOfParagraph" ::
            List.replicate count.natAbs "DeleteToBeginningOfParagraph"
        else
          "MoveToEndOfParagraph" :: List.replicate count.natAbs "DeleteToEndOfParagraph")⟩ := by
  by_cases hpos : count > 0
  · have hle : ¬ count ≤ 0 := by omega
    constructor <;>
      simp [deleteFromCursorCallback, hpos, hle, GTK_DELETE_WORDS, GTK_DELETE_DISPLAY_LINES,
        GTK_DELETE_PARAGRAPHS, tableAt, gtkDeleteCommands, appendRawCommand,
        stdAbs_of_gt count hcount, addPendingLoop_eq,
        KeyBindingTranslator.addPendingEditorCommand]
  · have hle : count ≤ 0 := by omega
    constructor <;>
      simp [deleteFromCursorCallback, hpos, hle, GTK_DELETE_WORDS, GTK_DELETE_DISPLAY_LINES,
        GTK_DELETE_PARAGRAPHS, tableAt, gtkDeleteCommands, appendRawCommand,
        stdAbs_of_gt count hcount, addPendingLoop_eq,
        KeyBindingTranslator.addPendingEditorCommand]

theorem deleteFromCursorCallback_boundary_move_witness :
    deleteFromCursorCallback GTK_DELETE_DISPLAY_LINES 3 ⟨[]⟩ =
      some ⟨["MoveToEndOfLine", "DeleteToEndOfLine", "DeleteToEndOfLine",
        "DeleteToEndOfLine"]⟩ ∧
    deleteFromCursorCallback GTK_DELETE_PARAGRAPHS (-2) ⟨[]⟩ =
      some ⟨["MoveToBeginningOfParagraph", "DeleteToBeginningOfParagraph",
        "DeleteToBeginningOfParagraph"]⟩ :=
  ⟨(deleteFromCursorCallback_boundary_move 3 ⟨[]⟩ (by decide)).1,
    (deleteFromCursorCallback_boundary_move (-2) ⟨[]⟩ (by decide)).2⟩

/-- C16: for every movement step (an `int`) outside 0..9, negative values
included, every count and every extendSelection flag, `moveCursorCallback`
returns with the pending queue unchanged and without reading
`gtkMoveCommands`; for every step in 0..9 the column
`2 * extendSelection + (count > 0 ? 1 : 0)` it reads is at most 3 and the read
is inside the table. -/
theorem moveCursorCallback_guard (step count : Int) (extendSelection : Bool)
    (translator : KeyBindingTranslator) (hmin : INT_MIN ≤ step) (hmax : step ≤ INT_MAX) :
    ((step < 0 ∨ 9 < step) →
      moveCursorCallback step count extendSelection translator = some translator) ∧
    ((0 ≤ step ∧ step ≤ 9) →
      ∃ direction : Nat,
        direction = 2 * (if extendSelection then 1 else 0) + (if count > 0 then 1 else 0) ∧
        direction ≤ 3 ∧
        (∃ cell, tableAt gtkMoveCommands step direction = some cell) ∧
        moveCursorCallback step count extendSelection translator =
          appendRawCommand (tableAt gtkMoveCommands step direction) count translator) := by
  constructor
  · exact moveCursorCallback_of_out_of_range step count extendSelection translator hmin hmax
  · intro hrange
    have hd : 2 * (if extendSelection then 1 else 0) + (if count > 0 then 1 else 0) ≤ 3 := by
      cases extendSelection <;> by_cases hpos : count > 0 <;> simp [hpos]
    exact ⟨_, rfl, hd, tableAt_gtkMoveCommands_in_range step _ hrange.1 hrange.2 hd,
      moveCursorCallback_of_in_range step count extendSelection translator hrange.1 hrange.2⟩

theorem moveCursorCallback_guard_witness :
    moveCursorCallback (-1) 2 true ⟨["Copy"]⟩ = some ⟨["Copy"]⟩ ∧
    moveCursorCallback 10 INT_MIN false ⟨[]⟩ = some ⟨[]⟩ ∧
    (∃ direction : Nat, direction ≤ 3 ∧
      moveCursorCallback 4 2 true ⟨[]⟩ =
        appendRawCommand (tableAt gtkMoveCommands 4 direction) 2 ⟨[]⟩) := by
  refine ⟨(moveCursorCallback_guard (-1) 2 true ⟨["Copy"]⟩ (by decide) (by decide)).1
      (Or.inl (by decide)),
    (moveCursorCallback_guard 10 INT_MIN false ⟨[]⟩ (by decide) (by decide)).1
      (Or.inr (by decide)), ?_⟩
  obtain ⟨direction, _, hle, _, heq⟩ :=
    (moveCursorCallback_guard 4 2 true ⟨[]⟩ (by decide) (by decide)).2
      ⟨by decide, by decide⟩
  exact ⟨direction, hle, heq⟩

/-- C17: a `nullptr` cell emits no command: for every count,
`deleteFromCursorCallback` with the whitespace unit, `moveCursorCallback` with
the paragraphs step without extendSelection, and `moveCursorCallback` with the
horizontal-pages step (either extendSelection value) leave the pending queue
as it was.  Every cell of the rows 0..6 of `gtkDeleteCommands` and of the rows
of `gtkMoveCommands` other than 5 and 9 is a command name. -/
theorem null_cell_emits_nothing (count : Int) (translator : KeyBindingTranslator) :
    deleteFromCursorCallback GTK_DELETE_WHITESPACE count translator = some translator ∧
    moveCursorCallback GTK_MOVEMENT_PARAGRAPHS count false translator = some translator ∧
    (∀ extendSelection : Bool,
      moveCursorCallback GTK_MOVEMENT_HORIZONTAL_PAGES count extendSelection translator =
        some translator) ∧
    (∀ deleteType : Nat, deleteType < 7 → ∀ direction : Nat, direction < 2 →
      ∃ c, tableAt gtkDeleteCommands deleteType direction = some (some c)) ∧
    (∀ step : Nat, step < 10 → step ≠ 5 → step ≠ 9 → ∀ direction : Nat, direction < 4 →
      ∃ c, tableAt gtkMoveCommands step direction = some (some c)) := by
  refine ⟨?_, ?_, ?_, ?_, ?_⟩
  · by_cases hpos : count > 0 <;>
      simp [deleteFromCursorCallback, hpos, GTK_DELETE_WHITESPACE, GTK_DELETE_WORDS,
        GTK_DELETE_DISPLAY_LINES, GTK_DELETE_PARAGRAPHS, tableAt, gtkDeleteCommands,
        appendRawCommand]
  · rw [moveCursorCallback_of_in_range _ _ _ _ (by decide) (by decide)]
    by_cases hpos : count > 0 <;>
      simp [hpos, GTK_MOVEMENT_PARAGRAPHS, tableAt, gtkMoveCommands, appendRawCommand]
  · intro extendSelection
    rw [moveCursorCallback_of_in_range _ _ _ _ (by decide) (by decide)]
    cases extendSelection <;> by_cases hpos : count > 0 <;>
      simp [hpos, GTK_MOVEMENT_HORIZONTAL_PAGES, tableAt, gtkMoveCommands, appendRawCommand]
  · intro deleteType ht direction hd
    interval_cases deleteType <;> interval_cases direction <;> exact ⟨_, rfl⟩
  · intro step hs h5 h9 direction hd
    interval_cases step <;> interval_cases direction <;>
      first
        | exact ⟨_, rfl⟩
        | exact absurd rfl h5
        | exact absurd rfl h9

theorem null_cell_emits_nothing_witness :
    deleteFromCursorCallback GTK_DELETE_WHITESPACE 4 ⟨["Copy"]⟩ = some ⟨["Copy"]⟩ ∧
    moveCursorCallback GTK_MOVEMENT_PARAGRAPHS (-3) false ⟨[]⟩ = some ⟨[]⟩ ∧
    moveCursorCallback GTK_MOVEMENT_HORIZONTAL_PAGES 1 true ⟨[]⟩ = some ⟨[]⟩ ∧
    (∃ c, tableAt gtkMoveCommands 5 3 = some (some c)) :=
  ⟨(null_cell_emits_nothing 4 ⟨["Copy"]⟩).1, (null_cell_emits_nothing (-3) ⟨[]⟩).2.1,
    (null_cell_emits_nothing 1 ⟨[]⟩).2.2.1 true, ⟨_, rfl⟩⟩

/-- C20: a count of zero is the backward direction and still emits the anchor
moves: `deleteFromCursorCallback` with count 0 appends exactly
MoveWordForward, MoveWordBackward for the words unit, MoveToBeginningOfLine
for the display-lines unit, MoveToBeginningOfParagraph for the paragraphs unit
and nothing for each other unit of `GtkDeleteType`, never a delete command;
`moveCursorCallback` with count 0 appends nothing, for every step and
extendSelection value. -/
theorem zero_count_emits_anchor_moves_only (translator : KeyBindingTranslator) :
    deleteFromCursorCallback GTK_DELETE_WORDS 0 translator =
      some ⟨translator.m_pendingEditorCommands ++ ["MoveWordForward", "MoveWordBackward"]⟩ ∧
    deleteFromCursorCallback GTK_DELETE_DISPLAY_LINES 0 translator =
      some ⟨translator.m_pendingEditorCommands ++ ["MoveToBeginningOfLine"]⟩ ∧
    deleteFromCursorCallback GTK_DELETE_PARAGRAPHS 0 translator =
      some ⟨translator.m_pendingEditorCommands ++ ["MoveToBeginningOfParagraph"]⟩ ∧
    (∀ deleteType : Int, 0 ≤ deleteType → deleteType ≤ 7 →
      deleteType ≠ GTK_DELETE_WORDS → deleteType ≠ GTK_DELETE_DISPLAY_LINES →
      deleteType ≠ GTK_DELETE_PARAGRAPHS →
      deleteFromCursorCallback deleteType 0 translator = some translator) ∧
    (∀ (step : Int) (extendSelection : Bool), INT_MIN ≤ step → step ≤ INT_MAX →
      moveCursorCallback step 0 extendSelection translator = some translator) := by
  refine ⟨?_, ?_, ?_, ?_, ?_⟩
  · simp [deleteFromCursorCallback, GTK_DELETE_WORDS, tableAt, gtkDeleteCommands,
      appendRawCommand, stdAbs, INT_MIN, addPendingLoop,
      KeyBindingTranslator.addPendingEditorCommand]
  · simp [deleteFromCursorCallback, GTK_DELETE_WORDS, GTK_DELETE_DISPLAY_LINES, tableAt,
      gtkDeleteCommands, appendRawCommand, stdAbs, INT_MIN, addPendingLoop,
      KeyBindingTranslator.addPendingEditorCommand]
  · simp [deleteFromCursorCallback, GTK_DELETE_WORDS, GTK_DELETE_DISPLAY_LINES,
      GTK_DELETE_PARAGRAPHS, tableAt, gtkDeleteCommands, appendRawCommand, stdAbs, INT_MIN,
      addPendingLoop, KeyBindingTranslator.addPendingEditorCommand]
  · intro deleteType h0 h7 hw hl hp
    simp only [GTK_DELETE_WORDS, GTK_DELETE_DISPLAY_LINES, GTK_DELETE_PARAGRAPHS] at hw hl hp
    interval_cases deleteType <;>
      first
        | exact absurd rfl hw
        | exact absurd rfl hl
        | exact absurd rfl hp
        | simp [deleteFromCursorCallback, GTK_DELETE_WORDS, GTK_DELETE_DISPLAY_LINES,
            GTK_DELETE_PARAGRAPHS, tableAt, gtkDeleteCommands, appendRawCommand, stdAbs,
            INT_MIN, addPendingLoop]
  · intro step extendSelection hmin hmax
    by_cases hrange : 0 ≤ step ∧ step ≤ 9
    · obtain ⟨h0, h9⟩ := hrange
      rw [moveCursorCallback_of_in_range step 0 extendSelection translator h0 h9]
      interval_cases step <;> cases extendSelection <;>
        simp [tableAt, gtkMoveCommands, appendRawCommand, stdAbs, INT_MIN, addPendingLoop]
    · exact moveCursorCallback_of_out_of_range step 0 extendSelection translator hmin hmax
        (by omega)

theorem zero_count_emits_anchor_moves_only_witness :
    deleteFromCursorCallback GTK_DELETE_WORDS 0 ⟨[]⟩ =
      some ⟨["MoveWordForward", "MoveWordBackward"]⟩ ∧
    deleteFromCursorCallback GTK_DELETE_CHARS 0 ⟨["Copy"]⟩ = some ⟨["Copy"]⟩ ∧
    moveCursorCallback GTK_MOVEMENT_WORDS 0 true ⟨["Copy"]⟩ = some ⟨["Copy"]⟩ :=
  ⟨(zero_count_emits_anchor_moves_only ⟨[]⟩).1,
    (zero_count_emits_anchor_moves_only ⟨["Copy"]⟩).2.2.2.1 GTK_DELETE_CHARS (by decide)
      (by decide) (by decide) (by decide) (by decide),
    (zero_count_emits_anchor_moves_only ⟨["Copy"]⟩).2.2.2.2 GTK_MOVEMENT_WORDS true
      (by decide) (by decide)⟩

/-! ## The keypad entries and the 16-bit key encoding -/

theorem scanMapping_ne_nil_of_mem (key : Nat) (mapping : List KeyCombinationEntry)
    (item : KeyCombinationEntry) (hmem : item ∈ mapping) (hkey : key = itemKey item) :
    scanMapping key mapping ≠ [] := by
  induction mapping with
  | nil => cases hmem
  | cons head rest ih =>
    by_cases hhead : key = itemKey head
    · simp [scanMapping, hhead]
    · rcases List.mem_cons.mp hmem with h | h
      · exact absurd (h ▸ hkey) hhead
      · simp only [scanMapping, if_neg hhead]
        exact ih h

theorem scanMapping_of_absent (keyval modifiers : Nat) (hk : keyval < 65536)
    (mapping : List KeyCombinationEntry)
    (hsub : ∀ e ∈ mapping, e ∈ customKeyBindings ++ predefinedKeyBindings)
    (hno : ∀ e ∈ mapping, ¬ (e.gdkKeyCode = keyval ∧ e.state = modifiers &&& 13)) :
    scanMapping (mapKey keyval modifiers) mapping = [] := by
  have hm : modifiers &&& 13 ≤ 13 := Nat.and_le_right
  apply scanMapping_eq_nil
  intro item hi heq
  obtain ⟨_, h1, h2, h3⟩ := table_entries_wellFormed item (hsub item hi)
  rw [mapKey_of_lt keyval modifiers hk, h3] at heq
  have hs : item.state ≤ 13 := by
    rw [← h2]
    exact Nat.and_le_right
  exact hno item hi ⟨by omega, by omega⟩

theorem commandsForKeyval_ne_nil_iff (keyval modifiers : Nat) :
    commandsForKeyval keyval modifiers ≠ [] ↔
      handleKeyBindingsForMap predefinedKeyBindings keyval modifiers ≠ [] ∨
        handleKeyBindingsForMap customKeyBindings keyval modifiers ≠ [] := by
  cases hp : handleKeyBindingsForMap predefinedKeyBindings keyval modifiers <;>
    simp [commandsForKeyval, handleCustomKeyBindings, hp]

set_option maxRecDepth 100000 in
/-- C18: control + shift + keypad Left resolves to the truncated name
MoveWordBackwardAndModifySelectio, which is not what control + shift + Left
resolves to; every other predefined entry of a keypad key whose non-keypad
twin (Left, Right, Up, Down, Home, End, Page_Up, Page_Down, Delete) has an
entry with the same state resolves to the same commands as the twin. -/
theorem keypad_left_truncated_only :
    commandsForKeyval GDK_KEY_KP_Left (GDK_CONTROL_MASK ||| GDK_SHIFT_MASK) =
      ["MoveWordBackwardAndModifySelectio"] ∧
    commandsForKeyval GDK_KEY_KP_Left (GDK_CONTROL_MASK ||| GDK_SHIFT_MASK) ≠
      commandsForKeyval GDK_KEY_Left (GDK_CONTROL_MASK ||| GDK_SHIFT_MASK) ∧
    (∀ pair ∈ [(GDK_KEY_KP_Left, GDK_KEY_Left), (GDK_KEY_KP_Right, GDK_KEY_Right),
        (GDK_KEY_KP_Up, GDK_KEY_Up), (GDK_KEY_KP_Down, GDK_KEY_Down),
        (GDK_KEY_KP_Home, GDK_KEY_Home), (GDK_KEY_KP_End, GDK_KEY_End),
        (GDK_KEY_KP_Page_Up, GDK_KEY_Page_Up), (GDK_KEY_KP_Page_Down, GDK_KEY_Page_Down),
        (GDK_KEY_KP_Delete, GDK_KEY_Delete)],
      ∀ e ∈ predefinedKeyBindings, e.gdkKeyCode = pair.1 →
        (∃ twin ∈ predefinedKeyBindings, twin.gdkKeyCode = pair.2 ∧ twin.state = e.state) →
        ¬ (pair.1 = GDK_KEY_KP_Left ∧ e.state = GDK_CONTROL_MASK ||| GDK_SHIFT_MASK) →
        commandsForKeyval pair.1 e.state = commandsForKeyval pair.2 e.state) := by
  decide

theorem keypad_left_truncated_only_witness :
    commandsForKeyval GDK_KEY_KP_Home (GDK_CONTROL_MASK ||| GDK_SHIFT_MASK) =
      commandsForKeyval GDK_KEY_Home (GDK_CONTROL_MASK ||| GDK_SHIFT_MASK) :=
  keypad_left_truncated_only.2.2 (GDK_KEY_KP_Home, GDK_KEY_Home) (by decide)
    ⟨GDK_KEY_KP_Home, GDK_CONTROL_MASK ||| GDK_SHIFT_MASK,
      "MoveToBeginningOfDocumentAndModifySelection"⟩ (by decide) rfl (by decide) (by decide)

/-- C19: for every key code below `2^16` and every modifier mask,
`commandsForKeyval` is non-empty exactly when the custom or the predefined
table has an entry with that key code and with the mask restricted to shift,
control and mod1 as state.  The encoding is injective on 16-bit key codes and
masked states, and every table entry has a non-zero key code below `2^16` and
a state within the mask.  One bit above: key code `2^16 + k` without
modifiers has the lookup key of `k` with shift. -/
theorem commandsForKeyval_nonempty_iff_entry (keyval modifiers : Nat)
    (hk : keyval < 65536) :
    (commandsForKeyval keyval modifiers ≠ [] ↔
      ∃ e ∈ customKeyBindings ++ predefinedKeyBindings,
        e.gdkKeyCode = keyval ∧ e.state = modifiers &&& 13) ∧
    (∀ keyval2 modifiers2 : Nat, keyval2 < 65536 →
      mapKey keyval modifiers = mapKey keyval2 modifiers2 →
      keyval = keyval2 ∧ modifiers &&& 13 = modifiers2 &&& 13) ∧
    (∀ e ∈ customKeyBindings ++ predefinedKeyBindings,
      0 < e.gdkKeyCode ∧ e.gdkKeyCode < 65536 ∧ e.state &&& 13 = e.state) ∧
    mapKey (65536 + keyval) 0 = mapKey keyval GDK_SHIFT_MASK := by
  have hm : modifiers &&& 13 ≤ 13 := Nat.and_le_right
  have hkey := mapKey_of_lt keyval modifiers hk
  refine ⟨⟨?_, ?_⟩, ?_, ?_, ?_⟩
  · intro hne
    by_contra hno
    apply hne
    have habsent : ∀ e ∈ customKeyBindings ++ predefinedKeyBindings,
        ¬ (e.gdkKeyCode = keyval ∧ e.state = modifiers &&& 13) :=
      fun e he hc => hno ⟨e, he, hc⟩
    have h1 := scanMapping_of_absent keyval modifiers hk customKeyBindings
      (fun e he => List.mem_append_left _ he)
      (fun e he => habsent e (List.mem_append_left _ he))
    have h2 := scanMapping_of_absent keyval modifiers hk predefinedKeyBindings
      (fun e he => List.mem_append_right _ he)
      (fun e he => habsent e (List.mem_append_right _ he))
    simp [commandsForKeyval, handleCustomKeyBindings, handleKeyBindingsForMap, h1, h2]
  · rintro ⟨e, he, hcode, hstate⟩
    obtain ⟨hpos, _, _, hitem⟩ := table_entries_wellFormed e he
    have heq : mapKey keyval modifiers = itemKey e := by
      rw [hkey, hitem, hcode, hstate]
    have hnz : mapKey keyval modifiers ≠ 0 := by
      rw [hkey]
      omega
    rw [commandsForKeyval_ne_nil_iff]
    rcases List.mem_append.mp he with hc | hp
    · right
      simp only [handleKeyBindingsForMap, if_neg hnz]
      exact scanMapping_ne_nil_of_mem _ _ e hc heq
    · left
      simp only [handleKeyBindingsForMap, if_neg hnz]
      exact scanMapping_ne_nil_of_mem _ _ e hp heq
  · intro keyval2 modifiers2 hk2 heq
    have hm2 : modifiers2 &&& 13 ≤ 13 := Nat.and_le_right
    rw [hkey, mapKey_of_lt keyval2 modifiers2 hk2] at heq
    constructor <;> omega
  · intro e he
    obtain ⟨h0, h1, h2, _⟩ := table_entries_wellFormed e he
    exact ⟨h0, h1, h2⟩
  · rw [mapKey_of_lt keyval GDK_SHIFT_MASK hk, mapKey_def]
    have hshift : GDK_SHIFT_MASK &&& 13 = 1 := by decide
    have hzero : (0 &&& 13) <<< 16 = 0 := by decide
    rw [hshift, hzero, Nat.zero_or]
    omega

theorem commandsForKeyval_nonempty_iff_entry_witness :
    commandsForKeyval GDK_KEY_a (GDK_CONTROL_MASK ||| 2) ≠ [] ∧
    mapKey (65536 + GDK_KEY_Left) 0 = mapKey GDK_KEY_Left GDK_SHIFT_MASK :=
  ⟨(commandsForKeyval_nonempty_iff_entry GDK_KEY_a (GDK_CONTROL_MASK ||| 2)
      (by decide)).1.mpr ⟨⟨GDK_KEY_a, GDK_CONTROL_MASK, "SelectAll"⟩, by decide, by decide⟩,
    (commandsForKeyval_nonempty_iff_entry GDK_KEY_Left 0 (by decide)).2.2.2⟩

/-- Exact characterisation of a hit on 32-bit key codes: for a
32-bit key code, `commandsForKeyval` is non-empty if and only if some entry
has the low half of the key code as key code and the masked modifiers or-ed
with the high half as state. -/
theorem commandsForKeyval_ne_nil_iff_alias (keyval modifiers : Nat)
    (hk : keyval < 4294967296) :
    commandsForKeyval keyval modifiers ≠ [] ↔
      ∃ e ∈ customKeyBindings ++ predefinedKeyBindings,
        e.gdkKeyCode = keyval % 65536 ∧
          e.state = (modifiers &&& 13) ||| (keyval >>> 16) := by
  constructor
  · intro hne
    by_contra hno
    apply hne
    have hnomatch : ∀ item ∈ customKeyBindings ++ predefinedKeyBindings,
        mapKey keyval modifiers ≠ itemKey item := fun item hi heq =>
      hno ⟨item, hi, (mapKey_eq_itemKey_iff keyval modifiers hk item hi).mp heq⟩
    have h1 := scanMapping_eq_nil (mapKey keyval modifiers) customKeyBindings
      (fun item hi => hnomatch item (List.mem_append_left _ hi))
    have h2 := scanMapping_eq_nil (mapKey keyval modifiers) predefinedKeyBindings
      (fun item hi => hnomatch item (List.mem_append_right _ hi))
    simp [commandsForKeyval, handleCustomKeyBindings, handleKeyBindingsForMap, h1, h2]
  · rintro ⟨e, he, hcode, hstate⟩
    have heq := (mapKey_eq_itemKey_iff keyval modifiers hk e he).mpr ⟨hcode, hstate⟩
    obtain ⟨hpos, _, _, hitem⟩ := table_entries_wellFormed e he
    have hnz : mapKey keyval modifiers ≠ 0 := by
      rw [heq, hitem]
      omega
    rw [commandsForKeyval_ne_nil_iff]
    rcases List.mem_append.mp he with hc | hp
    · right
      simp only [handleKeyBindingsForMap, if_neg hnz]
      exact scanMapping_ne_nil_of_mem _ _ e hc heq
    · left
      simp only [handleKeyBindingsForMap, if_neg hnz]
      exact scanMapping_ne_nil_of_mem _ _ e hp heq

end WebKit
